import Mathlib

/-!
Verification development for the peanut user-account backend.

The embedding mirrors the Go sources:
* `internal/model/user.go` — the `User` record, request DTOs, status constants;
* `internal/repository` (GORM implementation, the one wired in
  `cmd/server/main.go` via `db.DB()`) — CRUD and list/filter/pagination
  against the backing store;
* `internal/service` (`UserService`) — uniqueness checks, password hashing,
  partial-update merging, error mapping.

Two modelling levels are used, both translated from the source:
* an *oracle* level where a service function is a pure function of the
  outcomes its repository calls would return (this captures error-mapping
  behaviour including transient store failures and race-window outcomes);
* a *state* level where the backing store is a list of rows plus a clock,
  and repository operations are pure state transformers (this captures
  list/pagination, update and delete semantics when the store responds
  normally; the clock strictly advances on every mutating call, standing
  for `NOW()`).
-/

/-- Underlying backing-store fault causes (gorm / driver errors). -/
inductive StoreFault where
  | recordNotFound   -- gorm.ErrRecordNotFound: the query matched no row
  | uniqueViolation  -- a uniqueness constraint was violated on insert
  | connFailure      -- any other failure (connectivity, timeout, ...)
deriving DecidableEq, Repr

/-- Go error values that flow between repository, service and handler.
Sentinel errors are distinct values compared with errors.Is; fmt.Errorf
wrapping is modelled structurally. -/
inductive Err where
  | errUserNotFound                           -- service.ErrUserNotFound
  | errUserAlreadyExists                      -- service.ErrUserAlreadyExists
  | errEmailAlreadyUsed                       -- service.ErrEmailAlreadyUsed
  | repoMsg (label : String)                  -- repository fmt.Errorf with a plain message
  | repoWrap (label : String) (cause : StoreFault) -- repository fmt.Errorf("...: %w", cause)
  | svcWrap (label : String) (e : Err)        -- service fmt.Errorf("...: %w", e)
deriving DecidableEq, Repr

/-- User record (internal/model/user.go `User` with embedded `BaseModel`).
`id` is int64; timestamps are modelled as naturals read off the store clock. -/
structure User where
  id        : Int
  username  : String
  email     : String
  password  : String   -- stored bcrypt hash; json tag "-"
  status    : Int
  createdAt : Nat
  updatedAt : Nat
deriving DecidableEq, Repr

/-- Status constants from internal/model/user.go. -/
def UserStatusInactive : Int := 0

def UserStatusActive : Int := 1

def UserStatusBanned : Int := 2

/-- CreateUserRequest: {username, email, plaintext password}. -/
structure CreateUserRequest where
  username : String
  email    : String
  password : String
deriving DecidableEq, Repr

/-- UpdateUserRequest: username/email are plain strings where "" means
absent; status is an optional pointer. -/
structure UpdateUserRequest where
  username : String
  email    : String
  status   : Option Int
deriving DecidableEq, Repr

/-- UserQueryParams for List. -/
structure UserQueryParams where
  username : String
  email    : String
  status   : Option Int
  page     : Int
  pageSize : Int
deriving DecidableEq, Repr

/-- bcrypt.DefaultCost in golang.org/x/crypto/bcrypt. -/
def bcryptDefaultCost : Nat := 10

/-! ## JSON rendering of a user record

Field-by-field rendering dictated by the struct tags in
internal/model/user.go: `BaseModel` contributes id/created_at/updated_at,
then username, email, status; the password field carries tag `json:"-"`
and is omitted from every response representation. -/

/-- The caller-visible JSON representation of a user record, as the field
tags of `model.User` define it. -/
def userJSON (u : User) : List (String × String) :=
  [ ("id", toString u.id)
  , ("created_at", toString u.createdAt)
  , ("updated_at", toString u.updatedAt)
  , ("username", u.username)
  , ("email", u.email)
  , ("status", toString u.status) ]

/-! ## Oracle-level repository results

internal/repository/user.go (GORM): each repository method translates the
gorm outcome into either a value or a wrapped error. -/

/-- UserRepository.GetByID error translation (gorm branch): a
`gorm.ErrRecordNotFound` becomes the plain message 用户不存在, any other
store failure is wrapped as 获取用户失败. -/
def UserRepository.GetByIDres (dbResult : Except StoreFault User) : Except Err User :=
  match dbResult with
  | .ok u => .ok u
  | .error .recordNotFound => .error (.repoMsg "用户不存在")
  | .error e => .error (.repoWrap "获取用户失败" e)

/-! ## Oracle-level Account Service -/

/-- Outcomes of the repository calls a `UserService.Create` run observes.
Keeping them as data lets concurrent interleavings be expressed: the
existence pre-checks may pass while the insert still hits the store's
uniqueness constraint. On success the store assigns (id, now). -/
structure CreateOutcomes where
  existsByUsername : Except Err Bool
  existsByEmail    : Except Err Bool
  create           : Except Err (Int × Nat)
deriving Repr

/-- UserService.Create (internal/service/user.go): check username
existence, check email existence, hash the password at bcrypt.DefaultCost,
build the record with status active, delegate to repository Create. -/
def UserService.Create (hashFn : Nat → String → Except Err String)
    (o : CreateOutcomes) (req : CreateUserRequest) : Except Err User :=
  match o.existsByUsername with
  | .error e => .error (.svcWrap "检查用户名失败" e)
  | .ok true => .error .errUserAlreadyExists
  | .ok false =>
    match o.existsByEmail with
    | .error e => .error (.svcWrap "检查邮箱失败" e)
    | .ok true => .error .errEmailAlreadyUsed
    | .ok false =>
      match hashFn bcryptDefaultCost req.password with
      | .error e => .error (.svcWrap "加密密码失败" e)
      | .ok hashed =>
        let user : User :=
          { id := 0, username := req.username, email := req.email
          , password := hashed, status := UserStatusActive
          , createdAt := 0, updatedAt := 0 }
        match o.create with
        | .error e => .error (.svcWrap "创建用户失败" e)
        | .ok (newId, now) =>
            .ok { user with id := newId, createdAt := now, updatedAt := now }

/-- UserService.GetByID (internal/service/user.go): any repository error
becomes the sentinel ErrUserNotFound. -/
def UserService.GetByIDres (r : Except Err User) : Except Err User :=
  match r with
  | .error _ => .error .errUserNotFound
  | .ok u => .ok u

/-- The username branch of UserService.Update: skip when the request field
is empty; otherwise consult the uniqueness lookup — only a successful
lookup returning a *different* id aborts; any lookup error (including a
store failure) falls through and the new value is assigned. -/
def UserService.updateUsernameStep (lookup : Except Err User) (id : Int)
    (req : UpdateUserRequest) (user : User) : Except Err User :=
  if req.username == "" then .ok user
  else
    match lookup with
    | .ok existing =>
        if existing.id != id then .error .errUserAlreadyExists
        else .ok { user with username := req.username }
    | .error _ => .ok { user with username := req.username }

/-- The email branch of UserService.Update, symmetric to the username
branch. -/
def UserService.updateEmailStep (lookup : Except Err User) (id : Int)
    (req : UpdateUserRequest) (user : User) : Except Err User :=
  if req.email == "" then .ok user
  else
    match lookup with
    | .ok existing =>
        if existing.id != id then .error .errEmailAlreadyUsed
        else .ok { user with email := req.email }
    | .error _ => .ok { user with email := req.email }

/-- The status branch of UserService.Update: a supplied pointer value is
assigned unconditionally. -/
def UserService.updateStatusStep (req : UpdateUserRequest) (user : User) : User :=
  match req.status with
  | some st => { user with status := st }
  | none => user

/-- The pure field-merging part of UserService.Update, given the outcomes
of the two uniqueness lookups. -/
def UserService.mergeUpdate (lookupU lookupE : Except Err User) (id : Int)
    (req : UpdateUserRequest) (user : User) : Except Err User :=
  match UserService.updateUsernameStep lookupU id req user with
  | .error e => .error e
  | .ok u1 =>
    match UserService.updateEmailStep lookupE id req u1 with
    | .error e => .error e
    | .ok u2 => .ok (UserService.updateStatusStep req u2)

/-- Outcomes of the repository calls a `UserService.Update` run observes.
On success the store refreshes updated_at to `now`. -/
structure UpdateOutcomes where
  getById       : Except Err User
  getByUsername : Except Err User
  getByEmail    : Except Err User
  update        : Except Err Nat
deriving Repr

/-- UserService.Update (internal/service/user.go) at the oracle level:
fetch (any error → ErrUserNotFound), merge optionally-supplied fields with
uniqueness re-checks, delegate to repository Update which refreshes
updated_at. -/
def UserService.Update (o : UpdateOutcomes) (id : Int)
    (req : UpdateUserRequest) : Except Err User :=
  match o.getById with
  | .error _ => .error .errUserNotFound
  | .ok user =>
    match UserService.mergeUpdate o.getByUsername o.getByEmail id req user with
    | .error e => .error e
    | .ok u3 =>
      match o.update with
      | .error e => .error (.svcWrap "更新用户失败" e)
      | .ok now => .ok { u3 with updatedAt := now }

/-! ## State-level backing store

The store is a list of rows plus a clock standing for `NOW()`; every
mutating repository call advances the clock by one tick and stamps with
the new value, so time strictly increases across operations. -/

/-- The relational store: the `users` table plus the id sequence and a
monotone clock. -/
structure StoreState where
  rows   : List User
  nextId : Int
  clock  : Nat
deriving DecidableEq, Repr

/-- `needle` occurs at the head of `hay`. -/
def leadsWith : List Char → List Char → Bool
  | _, [] => true
  | [], _ :: _ => false
  | c :: cs, d :: ds => c == d && leadsWith cs ds

/-- `needle` occurs somewhere inside `hay` (SQL `LIKE %needle%`). -/
def containsSeq : List Char → List Char → Bool
  | [], needle => needle.isEmpty
  | c :: cs, needle => leadsWith (c :: cs) needle || containsSeq cs needle

/-- String containment, the semantics of `LIKE '%' || s || '%'`. -/
def strContainsSub (hay needle : String) : Bool :=
  containsSeq hay.data needle.data

/-- The conjunction of the optional List filters (username substring,
email substring, status equality), as UserRepository.List builds it. -/
def matchesFilter (p : UserQueryParams) (u : User) : Bool :=
  (p.username == "" || strContainsSub u.username p.username) &&
  (p.email == "" || strContainsSub u.email p.email) &&
  (match p.status with
   | some st => u.status == st
   | none => true)

/-- Descending order on ids, the `ORDER BY id DESC` relation. -/
def idDescRel (a b : User) : Prop := b.id ≤ a.id

instance : DecidableRel idDescRel := fun a b => inferInstanceAs (Decidable (b.id ≤ a.id))

/-- `ORDER BY id DESC` applied to a row set. -/
def sortByIdDesc (l : List User) : List User :=
  List.insertionSort idDescRel l

/-- The `page` clamp in UserRepository.List: `if page < 1 { page = 1 }`. -/
def clampPage (page : Int) : Int :=
  if page < 1 then 1 else page

/-- The `pageSize` clamp in UserRepository.List:
`if pageSize < 1 { pageSize = 10 }`. -/
def clampPageSize (pageSize : Int) : Int :=
  if pageSize < 1 then 10 else pageSize

/-- UserRepository.List: filter, count the whole filtered set, clamp the
pagination parameters, order by id descending and cut the
LIMIT/OFFSET window. Returns (rows, total). -/
def UserRepository.List (s : StoreState) (params : UserQueryParams) :
    List User × Int :=
  let filtered := s.rows.filter (matchesFilter params)
  let total : Int := filtered.length
  let page := clampPage params.page
  let pageSize := clampPageSize params.pageSize
  let offset := (page - 1) * pageSize
  (((sortByIdDesc filtered).drop offset.toNat).take pageSize.toNat, total)

/-- UserRepository.GetByID on the store state (`First(&user, id)`). -/
def UserRepository.GetByID (s : StoreState) (id : Int) : Except Err User :=
  match s.rows.find? (fun r => r.id == id) with
  | some u => .ok u
  | none => .error (.repoMsg "用户不存在")

/-- UserRepository.GetByUsername on the store state. -/
def UserRepository.GetByUsername (s : StoreState) (username : String) :
    Except Err User :=
  match s.rows.find? (fun r => r.username == username) with
  | some u => .ok u
  | none => .error (.repoMsg "用户不存在")

/-- UserRepository.GetByEmail on the store state. -/
def UserRepository.GetByEmail (s : StoreState) (email : String) :
    Except Err User :=
  match s.rows.find? (fun r => r.email == email) with
  | some u => .ok u
  | none => .error (.repoMsg "用户不存在")

/-- UserRepository.Update on the store state (GORM `Save`): write all
mutable fields of the row with the matching id and refresh updated_at
to NOW(); zero rows affected is the 用户不存在 outcome. -/
def UserRepository.Update (s : StoreState) (u : User) :
    StoreState × Except Err User :=
  let now := s.clock + 1
  if s.rows.any (fun r => r.id == u.id) then
    let u2 := { u with updatedAt := now }
    ({ s with rows := s.rows.map (fun r => if r.id == u.id then u2 else r)
            , clock := now }
    , .ok u2)
  else
    ({ s with clock := now }, .error (.repoMsg "用户不存在"))

/-- UserRepository.Delete on the store state (`Delete(&User{}, id)`):
remove the row; zero rows affected is the 用户不存在 outcome. -/
def UserRepository.Delete (s : StoreState) (id : Int) :
    StoreState × Option Err :=
  let remaining := s.rows.filter (fun r => !(r.id == id))
  if remaining.length == s.rows.length then
    ({ s with clock := s.clock + 1 }, some (.repoMsg "用户不存在"))
  else
    ({ s with rows := remaining, clock := s.clock + 1 }, none)

/-- UserService.Update run against the store state: the oracle update with
its lookups answered by the live store and the persist step performed by
UserRepository.Update. Returns the evolved store and the outcome. -/
def UserService.UpdateSt (s : StoreState) (id : Int)
    (req : UpdateUserRequest) : StoreState × Except Err User :=
  match UserRepository.GetByID s id with
  | .error _ => (s, .error .errUserNotFound)
  | .ok user =>
    match UserService.mergeUpdate (UserRepository.GetByUsername s req.username)
        (UserRepository.GetByEmail s req.email) id req user with
    | .error e => (s, .error e)
    | .ok u3 =>
      match UserRepository.Update s u3 with
      | (s2, .error e) => (s2, .error (.svcWrap "更新用户失败" e))
      | (s2, .ok u4) => (s2, .ok u4)

/-- UserService.Delete run against the store state: confirm existence via
GetByID (any error → ErrUserNotFound), then delegate to the repository
Delete, returning its error unchanged. -/
def UserService.DeleteSt (s : StoreState) (id : Int) :
    StoreState × Option Err :=
  match UserRepository.GetByID s id with
  | .error _ => (s, some .errUserNotFound)
  | .ok _ => UserRepository.Delete s id

/-! ## Remaining definitions for the pagination claims -/

/-- Pages 1..n of a List query at page_size 10, concatenated in order
(page i is appended after pages 1..i-1). -/
def concatPages (s : StoreState) (p : UserQueryParams) : Nat → List User
  | 0 => []
  | n + 1 =>
      concatPages s p n ++
        (UserRepository.List s
          { p with page := (n : Int) + 1, pageSize := 10 }).1

instance : IsTotal User idDescRel := ⟨fun a b => le_total b.id a.id⟩

instance : IsTrans User idDescRel := ⟨fun _ _ _ hab hbc => le_trans hbc hab⟩

/-- A row with the given id and neutral remaining fields. -/
def mkRow (i : Int) : User :=
  { id := i, username := "", email := "", password := ""
  , status := UserStatusActive, createdAt := 0, updatedAt := 0 }

/-- A store holding 101 rows with ids 100 down to 0. -/
def db101 : StoreState :=
  { rows := (List.range 101).map (fun i => mkRow (100 - (i : Int)))
  , nextId := 102, clock := 0 }

/-- The empty filter with the given page and page_size. -/
def pageParams (page pageSize : Int) : UserQueryParams :=
  { username := "", email := "", status := none
  , page := page, pageSize := pageSize }

/-! ## Theorems -/

/-- C8 (confirmed): the caller-visible representation of a user record is
independent of the password field — the `json:"-"` tag keeps password
material out of every response — and no `password` key is ever emitted. -/
theorem c8_password_write_only :
    ∀ (u : User) (p : String),
      userJSON { u with password := p } = userJSON u ∧
      "password" ∉ (userJSON u).map Prod.fst := by
  intro u p
  exact ⟨rfl, by simp [userJSON]⟩

/-- C2 counterexample: a connectivity failure from the storage lookup —
not a 'no row' condition — is returned to the caller as the service's
NotFound error, refuting the claim that this never happens. -/
theorem c2_counterexample :
    UserService.GetByIDres
        (UserRepository.GetByIDres (.error .connFailure))
      = .error .errUserNotFound := rfl

/-- C2 amended (theorem): GetByID maps every storage failure — the
'no row' outcome and any other store error alike — to the service's own
NotFound error, and passes successful fetches through unchanged. -/
theorem c2_getbyid_maps_all_errors :
    (∀ e : Err, UserService.GetByIDres (.error e) = .error .errUserNotFound) ∧
    (∀ u : User, UserService.GetByIDres (.ok u) = .ok u) ∧
    (∀ f : StoreFault,
      UserService.GetByIDres (UserRepository.GetByIDres (.error f))
        = .error .errUserNotFound) :=
  ⟨fun _ => rfl, fun _ => rfl, fun f => by cases f <;> rfl⟩

/-- C1 counterexample: with both pre-checks passing and the insert failing
on the store's uniqueness constraint, Create returns the generic wrapped
create-failure error, not the AlreadyExists error of the pre-check. -/
theorem c1_counterexample :
    UserService.Create (fun _ p => .ok p)
        { existsByUsername := .ok false, existsByEmail := .ok false
        , create := .error (.repoWrap "创建用户失败" .uniqueViolation) }
        { username := "alice", email := "a@x.com", password := "secret1" }
      = .error (.svcWrap "创建用户失败"
          (.repoWrap "创建用户失败" .uniqueViolation)) ∧
    UserService.Create (fun _ p => .ok p)
        { existsByUsername := .ok false, existsByEmail := .ok false
        , create := .error (.repoWrap "创建用户失败" .uniqueViolation) }
        { username := "alice", email := "a@x.com", password := "secret1" }
      ≠ .error .errUserAlreadyExists :=
  ⟨rfl, by simp [UserService.Create]⟩

/-- C1 amended (theorem): whenever the existence pre-checks pass, the
password hashing succeeds, and the Record Store insert fails with a
uniqueness ConstraintViolation, Create surfaces the wrapped generic
create-failure error (an internal/store error to the caller), never the
AlreadyExists error. -/
theorem c1_constraint_violation_is_wrapped
    (hashFn : Nat → String → Except Err String) (o : CreateOutcomes)
    (req : CreateUserRequest) (hashed : String)
    (hu : o.existsByUsername = .ok false)
    (he : o.existsByEmail = .ok false)
    (hp : hashFn bcryptDefaultCost req.password = .ok hashed)
    (hc : o.create = .error (.repoWrap "创建用户失败" .uniqueViolation)) :
    UserService.Create hashFn o req
      = .error (.svcWrap "创建用户失败"
          (.repoWrap "创建用户失败" .uniqueViolation)) ∧
    UserService.Create hashFn o req ≠ .error .errUserAlreadyExists := by
  constructor
  · simp only [UserService.Create, hu, he, hp, hc]
  · simp only [UserService.Create, hu, he, hp, hc]
    simp

/-- Witness for the amended C1 theorem at a concrete input. -/
theorem c1_constraint_violation_is_wrapped_witness :
    UserService.Create (fun _ p => .ok p)
        { existsByUsername := .ok false, existsByEmail := .ok false
        , create := .error (.repoWrap "创建用户失败" .uniqueViolation) }
        { username := "bob", email := "b@x.com", password := "secret2" }
      = .error (.svcWrap "创建用户失败"
          (.repoWrap "创建用户失败" .uniqueViolation)) ∧
    UserService.Create (fun _ p => .ok p)
        { existsByUsername := .ok false, existsByEmail := .ok false
        , create := .error (.repoWrap "创建用户失败" .uniqueViolation) }
        { username := "bob", email := "b@x.com", password := "secret2" }
      ≠ .error .errUserAlreadyExists :=
  c1_constraint_violation_is_wrapped (fun _ p => .ok p) _ _ "secret2"
    rfl rfl rfl rfl

/-- C4 (confirmed): Create follows exactly the specified sequence — a
username hit fails AlreadyExists(username) without consulting the email
check, then an email hit fails AlreadyExists(email), then the password is
hashed at bcrypt's fixed DefaultCost, the record is built with status
active and delegated to the store's create, which assigns id and
timestamps. -/
theorem c4_create_sequence
    (hashFn : Nat → String → Except Err String) (o : CreateOutcomes)
    (req : CreateUserRequest) :
    (o.existsByUsername = .ok true →
      UserService.Create hashFn o req = .error .errUserAlreadyExists) ∧
    (o.existsByUsername = .ok false → o.existsByEmail = .ok true →
      UserService.Create hashFn o req = .error .errEmailAlreadyUsed) ∧
    (∀ (hashed : String) (newId : Int) (now : Nat),
      o.existsByUsername = .ok false → o.existsByEmail = .ok false →
      hashFn bcryptDefaultCost req.password = .ok hashed →
      o.create = .ok (newId, now) →
      UserService.Create hashFn o req =
        .ok { id := newId, username := req.username, email := req.email
            , password := hashed, status := UserStatusActive
            , createdAt := now, updatedAt := now }) := by
  refine ⟨fun h1 => ?_, fun h1 h2 => ?_, fun hashed newId now h1 h2 h3 h4 => ?_⟩
  · simp only [UserService.Create, h1]
  · simp only [UserService.Create, h1, h2]
  · simp only [UserService.Create, h1, h2, h3, h4]

/-- Witness for the C4 sequence theorem at concrete inputs. -/
theorem c4_create_sequence_witness :
    UserService.Create (fun _ p => .ok p)
        { existsByUsername := .ok true, existsByEmail := .ok false
        , create := .ok (7, 3) }
        { username := "alice", email := "a@x.com", password := "secret1" }
      = .error .errUserAlreadyExists ∧
    UserService.Create (fun _ p => .ok p)
        { existsByUsername := .ok false, existsByEmail := .ok false
        , create := .ok (7, 3) }
        { username := "alice", email := "a@x.com", password := "secret1" }
      = .ok { id := 7, username := "alice", email := "a@x.com"
            , password := "secret1", status := UserStatusActive
            , createdAt := 3, updatedAt := 3 } :=
  ⟨(c4_create_sequence (fun _ p => .ok p) _ _).1 rfl,
   (c4_create_sequence (fun _ p => .ok p) _ _).2.2 "secret1" 7 3
     rfl rfl rfl rfl⟩

/-- Field accounting for the username branch of Update: on success, only
the username may change, and it changes exactly when supplied non-empty. -/
theorem updateUsernameStep_ok_fields (lookup : Except Err User) (id : Int)
    (req : UpdateUserRequest) (user u1 : User)
    (h : UserService.updateUsernameStep lookup id req user = .ok u1) :
    u1.username = (if req.username = "" then user.username else req.username) ∧
    u1.email = user.email ∧ u1.status = user.status ∧ u1.id = user.id ∧
    u1.password = user.password ∧ u1.createdAt = user.createdAt ∧
    u1.updatedAt = user.updatedAt := by
  unfold UserService.updateUsernameStep at h
  by_cases h1 : req.username = ""
  · simp only [h1, beq_self_eq_true, if_true, Except.ok.injEq] at h
    subst h
    simp [h1]
  · rw [if_neg (by simpa using h1)] at h
    split at h
    · split at h
      · cases h
      · simp only [Except.ok.injEq] at h
        subst h
        simp [h1]
    · simp only [Except.ok.injEq] at h
      subst h
      simp [h1]

/-- Field accounting for the email branch of Update, symmetric to the
username branch. -/
theorem updateEmailStep_ok_fields (lookup : Except Err User) (id : Int)
    (req : UpdateUserRequest) (user u1 : User)
    (h : UserService.updateEmailStep lookup id req user = .ok u1) :
    u1.email = (if req.email = "" then user.email else req.email) ∧
    u1.username = user.username ∧ u1.status = user.status ∧ u1.id = user.id ∧
    u1.password = user.password ∧ u1.createdAt = user.createdAt ∧
    u1.updatedAt = user.updatedAt := by
  unfold UserService.updateEmailStep at h
  by_cases h1 : req.email = ""
  · simp only [h1, beq_self_eq_true, if_true, Except.ok.injEq] at h
    subst h
    simp [h1]
  · rw [if_neg (by simpa using h1)] at h
    split at h
    · split at h
      · cases h
      · simp only [Except.ok.injEq] at h
        subst h
        simp [h1]
    · simp only [Except.ok.injEq] at h
      subst h
      simp [h1]

/-- Field accounting for the status branch of Update: a supplied pointer
is assigned, everything else is untouched. -/
theorem updateStatusStep_fields (req : UpdateUserRequest) (user : User) :
    (UserService.updateStatusStep req user).status
        = (match req.status with
           | some st => st
           | none => user.status) ∧
    (UserService.updateStatusStep req user).username = user.username ∧
    (UserService.updateStatusStep req user).email = user.email ∧
    (UserService.updateStatusStep req user).id = user.id ∧
    (UserService.updateStatusStep req user).password = user.password ∧
    (UserService.updateStatusStep req user).createdAt = user.createdAt ∧
    (UserService.updateStatusStep req user).updatedAt = user.updatedAt := by
  unfold UserService.updateStatusStep
  cases req.status <;> simp

/-- Field accounting for the whole merge step of Update: on success, the
username/email are replaced exactly when supplied non-empty, the status
follows the optional pointer, and every other field is untouched. -/
theorem mergeUpdate_ok_fields (lookupU lookupE : Except Err User) (id : Int)
    (req : UpdateUserRequest) (user u3 : User)
    (h : UserService.mergeUpdate lookupU lookupE id req user = .ok u3) :
    u3.username = (if req.username = "" then user.username else req.username) ∧
    u3.email = (if req.email = "" then user.email else req.email) ∧
    u3.status = (match req.status with
                 | some st => st
                 | none => user.status) ∧
    u3.id = user.id ∧ u3.password = user.password ∧
    u3.createdAt = user.createdAt ∧ u3.updatedAt = user.updatedAt := by
  unfold UserService.mergeUpdate at h
  split at h
  · cases h
  · rename_i u1 hu
    split at h
    · cases h
    · rename_i u2 he
      simp only [Except.ok.injEq] at h
      obtain ⟨e1, e2, e3, e4, e5, e6, e7⟩ :=
        updateUsernameStep_ok_fields lookupU id req user u1 hu
      obtain ⟨f1, f2, f3, f4, f5, f6, f7⟩ :=
        updateEmailStep_ok_fields lookupE id req u1 u2 he
      obtain ⟨g1, g2, g3, g4, g5, g6, g7⟩ := updateStatusStep_fields req u2
      subst h
      refine ⟨?_, ?_, ?_, ?_, ?_, ?_, ?_⟩ <;>
        simp [g1, g2, g3, g4, g5, g6, g7, f1, f2, f3, f4, f5, f6, f7,
              e1, e2, e3, e4, e5, e6, e7]

/-- A failed username lookup never aborts the username branch: the step
returns success, assigning the supplied value when non-empty. -/
theorem updateUsernameStep_error_lookup (e : Err) (id : Int)
    (req : UpdateUserRequest) (user : User) :
    UserService.updateUsernameStep (.error e) id req user
      = .ok (if req.username = "" then user
             else { user with username := req.username }) := by
  unfold UserService.updateUsernameStep
  by_cases h1 : req.username = "" <;> simp [h1]

/-- A failed email lookup never aborts the email branch: the step returns
success, assigning the supplied value when non-empty. -/
theorem updateEmailStep_error_lookup (e : Err) (id : Int)
    (req : UpdateUserRequest) (user : User) :
    UserService.updateEmailStep (.error e) id req user
      = .ok (if req.email = "" then user
             else { user with email := req.email }) := by
  unfold UserService.updateEmailStep
  by_cases h1 : req.email = "" <;> simp [h1]

/-- With both uniqueness lookups failing, the merge step still succeeds,
assigning every supplied field. -/
theorem mergeUpdate_error_lookups (eu ee : Err) (id : Int)
    (req : UpdateUserRequest) (user : User) :
    UserService.mergeUpdate (.error eu) (.error ee) id req user
      = .ok (UserService.updateStatusStep req
          (if req.email = "" then
            (if req.username = "" then user
             else { user with username := req.username })
           else
            { (if req.username = "" then user
               else { user with username := req.username }) with
              email := req.email })) := by
  unfold UserService.mergeUpdate
  rw [updateUsernameStep_error_lookup]
  dsimp only
  rw [updateEmailStep_error_lookup]

/-- C9 (confirmed): when a uniqueness re-check lookup inside Update fails
with any error — a transient store failure included — the conflict check
is treated as no conflict: the supplied value is assigned, the update
proceeds and succeeds, and the lookup error never surfaces to the
caller. -/
theorem c9_update_lookup_error_no_conflict
    (o : UpdateOutcomes) (id : Int) (req : UpdateUserRequest) (user : User)
    (eu ee : Err) (now : Nat)
    (hg : o.getById = .ok user)
    (hu : o.getByUsername = .error eu)
    (he : o.getByEmail = .error ee)
    (hupd : o.update = .ok now) :
    ∃ u2, UserService.Update o id req = .ok u2 ∧
      (req.username ≠ "" → u2.username = req.username) ∧
      (req.email ≠ "" → u2.email = req.email) := by
  obtain ⟨u3, hm⟩ :
      ∃ u3, UserService.mergeUpdate (.error eu) (.error ee) id req user
              = .ok u3 :=
    ⟨_, mergeUpdate_error_lookups eu ee id req user⟩
  obtain ⟨m1, m2, _, _, _, _, _⟩ :=
    mergeUpdate_ok_fields (.error eu) (.error ee) id req user u3 hm
  refine ⟨{ u3 with updatedAt := now }, ?_, ?_, ?_⟩
  · unfold UserService.Update
    rw [hg]
    dsimp only
    rw [hu, he, hm]
    dsimp only
    rw [hupd]
  · intro hne
    simpa [hne] using m1
  · intro hne
    simpa [hne] using m2

/-- Witness for the C9 theorem at a concrete input. -/
theorem c9_update_lookup_error_no_conflict_witness :
    ∃ u2,
      UserService.Update
          { getById := .ok (mkRow 1)
          , getByUsername := .error (.repoWrap "获取用户失败" .connFailure)
          , getByEmail := .error (.repoWrap "获取用户失败" .connFailure)
          , update := .ok 5 }
          1 { username := "carol", email := "c@x.com", status := none }
        = .ok u2 ∧
      (("carol" : String) ≠ "" → u2.username = "carol") ∧
      (("c@x.com" : String) ≠ "" → u2.email = "c@x.com") :=
  c9_update_lookup_error_no_conflict _ 1
    { username := "carol", email := "c@x.com", status := none } (mkRow 1)
    (.repoWrap "获取用户失败" .connFailure)
    (.repoWrap "获取用户失败" .connFailure) 5 rfl rfl rfl rfl

/-- C10 (confirmed): in Update an empty-string username or email means
'no change' (so no update can change username or email to the empty
string), while a supplied status pointer — any value, 0 included — is
assigned. -/
theorem c10_empty_means_no_change
    (o : UpdateOutcomes) (id : Int) (req : UpdateUserRequest) (user u2 : User)
    (hg : o.getById = .ok user)
    (hok : UserService.Update o id req = .ok u2) :
    u2.username = (if req.username = "" then user.username else req.username) ∧
    u2.email = (if req.email = "" then user.email else req.email) ∧
    u2.status = (match req.status with
                 | some st => st
                 | none => user.status) := by
  unfold UserService.Update at hok
  rw [hg] at hok
  dsimp only at hok
  split at hok
  · cases hok
  · rename_i u3 hm
    split at hok
    · cases hok
    · rename_i now hupd
      simp only [Except.ok.injEq] at hok
      obtain ⟨m1, m2, m3, _, _, _, _⟩ :=
        mergeUpdate_ok_fields o.getByUsername o.getByEmail id req user u3 hm
      subst hok
      exact ⟨by simpa using m1, by simpa using m2, by simpa using m3⟩

/-- Witness for the C10 theorem at a concrete input: only status supplied
(value 2), username and email empty. -/
theorem c10_empty_means_no_change_witness :
    ((mkRow 1).status = 2 → True) ∧
    ({ mkRow 1 with status := 2, updatedAt := 5 } : User).username
        = (if ("" : String) = "" then (mkRow 1).username else "") ∧
    ({ mkRow 1 with status := 2, updatedAt := 5 } : User).email
        = (if ("" : String) = "" then (mkRow 1).email else "") ∧
    ({ mkRow 1 with status := 2, updatedAt := 5 } : User).status
        = (match (some 2 : Option Int) with
           | some st => st
           | none => (mkRow 1).status) := by
  refine ⟨fun _ => trivial, ?_⟩
  exact c10_empty_means_no_change
    { getById := .ok (mkRow 1)
    , getByUsername := .error (.repoMsg "用户不存在")
    , getByEmail := .error (.repoMsg "用户不存在")
    , update := .ok 5 }
    1 { username := "", email := "", status := some 2 } (mkRow 1)
    { mkRow 1 with status := 2, updatedAt := 5 } rfl rfl

/-- C7 (confirmed): deleting a nonexistent id yields NotFound, not a
store error — the service's Delete fails with its NotFound sentinel when
the existence fetch finds no row, and the repository's delete itself
returns success when a row was deleted and the NotFound outcome when no
row was affected. -/
theorem c7_delete_not_found (s : StoreState) (id : Int) :
    ((∀ r ∈ s.rows, r.id ≠ id) →
        UserService.DeleteSt s id = (s, some .errUserNotFound)) ∧
    ((∀ r ∈ s.rows, r.id ≠ id) →
        (UserRepository.Delete s id).2 = some (.repoMsg "用户不存在")) ∧
    ((∃ r ∈ s.rows, r.id = id) →
        (UserRepository.Delete s id).2 = none) := by
  refine ⟨fun h => ?_, fun h => ?_, fun h => ?_⟩
  · have hf : s.rows.find? (fun r => r.id == id) = none :=
      List.find?_eq_none.mpr (fun x hx => by simpa using h x hx)
    unfold UserService.DeleteSt UserRepository.GetByID
    rw [hf]
  · have hf : s.rows.filter (fun r => !(r.id == id)) = s.rows :=
      List.filter_eq_self.mpr (fun a ha => by simpa using h a ha)
    unfold UserRepository.Delete
    simp [hf]
  · obtain ⟨r, hr, hid⟩ := h
    have hlt : (s.rows.filter (fun r => !(r.id == id))).length
        < s.rows.length :=
      List.length_filter_lt_length_iff_exists.mpr ⟨r, hr, by simp [hid]⟩
    have hne : (s.rows.filter (fun r => !(r.id == id))).length
        ≠ s.rows.length := Nat.ne_of_lt hlt
    unfold UserRepository.Delete
    simp [hne]

/-- Witness for the C7 theorem: an empty store for the missing-id parts
and a one-row store for the successful-delete part. -/
theorem c7_delete_not_found_witness :
    ((∀ r ∈ ({ rows := [], nextId := 1, clock := 0 } : StoreState).rows,
        r.id ≠ 1) →
      UserService.DeleteSt { rows := [], nextId := 1, clock := 0 } 1
        = ({ rows := [], nextId := 1, clock := 0 }, some .errUserNotFound)) ∧
    ((∀ r ∈ ({ rows := [], nextId := 1, clock := 0 } : StoreState).rows,
        r.id ≠ 1) →
      (UserRepository.Delete { rows := [], nextId := 1, clock := 0 } 1).2
        = some (.repoMsg "用户不存在")) ∧
    UserService.DeleteSt { rows := [], nextId := 1, clock := 0 } 1
        = ({ rows := [], nextId := 1, clock := 0 }, some .errUserNotFound) ∧
    (UserRepository.Delete
        { rows := [mkRow 1], nextId := 2, clock := 0 } 1).2 = none := by
  have h1 := c7_delete_not_found { rows := [], nextId := 1, clock := 0 } 1
  have h2 := c7_delete_not_found { rows := [mkRow 1], nextId := 2, clock := 0 } 1
  exact ⟨h1.1, h1.2.1, h1.1 (by simp), h2.2.2 ⟨mkRow 1, by simp, rfl⟩⟩

/-- A successful service GetByID pins down the row lookup. -/
theorem getByID_ok_find (s : StoreState) (id : Int) (user : User)
    (h : UserRepository.GetByID s id = .ok user) :
    s.rows.find? (fun r => r.id == id) = some user := by
  unfold UserRepository.GetByID at h
  split at h
  · rename_i u hu
    simp only [Except.ok.injEq] at h
    subst h
    exact hu
  · cases h

/-- C6 (confirmed): an update that supplies only status leaves username
and email unchanged, assigns the status, and stamps an updated_at
strictly greater than the record's previous one (the store clock
advances past every stamp already recorded). -/
theorem c6_status_only_update (s : StoreState) (id st : Int) (user : User)
    (hfind : UserRepository.GetByID s id = .ok user)
    (hclock : user.updatedAt ≤ s.clock) :
    ∃ u2, (UserService.UpdateSt s id
        { username := "", email := "", status := some st }).2 = .ok u2 ∧
      u2.username = user.username ∧ u2.email = user.email ∧
      u2.status = st ∧ user.updatedAt < u2.updatedAt := by
  have hq := getByID_ok_find s id user hfind
  have hmem : user ∈ s.rows := List.mem_of_find?_eq_some hq
  have hpred := List.find?_some hq
  have hany : (s.rows.any fun r => r.id == user.id) = true :=
    List.any_eq_true.mpr ⟨user, hmem, by simp⟩
  have hmerge : UserService.mergeUpdate (UserRepository.GetByUsername s "")
      (UserRepository.GetByEmail s "") id
      { username := "", email := "", status := some st } user
      = .ok { user with status := st } := by
    simp [UserService.mergeUpdate, UserService.updateUsernameStep,
          UserService.updateEmailStep, UserService.updateStatusStep]
  refine ⟨{ user with status := st, updatedAt := s.clock + 1 },
    ?_, by simp, by simp, by simp, Nat.lt_succ_of_le hclock⟩
  unfold UserService.UpdateSt
  rw [hfind]
  dsimp only
  rw [hmerge]
  dsimp only
  unfold UserRepository.Update
  rw [if_pos hany]

/-- Witness for the C6 theorem at a one-row store. -/
theorem c6_status_only_update_witness :
    ∃ u2, (UserService.UpdateSt { rows := [mkRow 1], nextId := 2, clock := 0 } 1
        { username := "", email := "", status := some 2 }).2 = .ok u2 ∧
      u2.username = (mkRow 1).username ∧ u2.email = (mkRow 1).email ∧
      u2.status = 2 ∧ (mkRow 1).updatedAt < u2.updatedAt :=
  c6_status_only_update { rows := [mkRow 1], nextId := 2, clock := 0 } 1 2
    (mkRow 1) rfl (Nat.le_refl 0)

/-- C3 counterexample: the Record Store's list does not clamp page_size
to 100 — a request with page_size = 101 keeps 101 and gets a 101-row
page, refuting both the upper clamp and the default-on-invalid claim. -/
theorem c3_counterexample :
    (UserRepository.List db101 (pageParams 1 101)).1.length = 101 ∧
    clampPageSize 101 = 101 ∧ ¬ clampPageSize 101 ≤ 100 := by
  refine ⟨by rfl, rfl, by decide⟩

/-- C3 amended (theorem): the store clamps page ≥ 1 (default 1 when
invalid) and page_size ≥ 1 (default 10 when invalid) — with no upper
bound applied — computes the window at offset = (page−1)×page_size, and
returns a total equal to the full filtered set size independent of the
page window. -/
theorem c3_pagination_clamps (s : StoreState) (p : UserQueryParams) :
    1 ≤ clampPage p.page ∧
    1 ≤ clampPageSize p.pageSize ∧
    (p.page < 1 → clampPage p.page = 1) ∧
    (p.pageSize < 1 → clampPageSize p.pageSize = 10) ∧
    (UserRepository.List s p).1
      = ((sortByIdDesc (s.rows.filter (matchesFilter p))).drop
          ((clampPage p.page - 1) * clampPageSize p.pageSize).toNat).take
          (clampPageSize p.pageSize).toNat ∧
    (UserRepository.List s p).2
      = ((s.rows.filter (matchesFilter p)).length : Int) := by
  refine ⟨?_, ?_, fun h => ?_, fun h => ?_, rfl, rfl⟩
  · unfold clampPage; split <;> omega
  · unfold clampPageSize; split <;> omega
  · unfold clampPage; rw [if_pos h]
  · unfold clampPageSize; rw [if_pos h]

/-- Witness for the amended C3 theorem: invalid page and page_size are
defaulted to 1 and 10. -/
theorem c3_pagination_clamps_witness :
    clampPage (pageParams 0 0).page = 1 ∧
    clampPageSize (pageParams 0 0).pageSize = 10 := by
  have h := c3_pagination_clamps
    { rows := [], nextId := 1, clock := 0 } (pageParams 0 0)
  exact ⟨h.2.2.1 (by decide), h.2.2.2.1 (by decide)⟩

/-- Concatenating pages 1..n at page_size 10 is exactly the first n×10
rows of the ordered filtered set. -/
theorem concatPages_eq_take (s : StoreState) (p : UserQueryParams) (n : Nat) :
    concatPages s p n
      = (sortByIdDesc (s.rows.filter (matchesFilter p))).take (n * 10) := by
  induction n with
  | zero => simp [concatPages]
  | succ n ih =>
    unfold concatPages
    rw [ih]
    unfold UserRepository.List
    dsimp only
    have hcp : clampPage ((n : Int) + 1) = (n : Int) + 1 := by
      unfold clampPage; rw [if_neg (by omega)]
    rw [hcp]
    rw [show clampPageSize 10 = 10 from rfl]
    rw [show (((n : Int) + 1 - 1) * 10).toNat = n * 10 from by omega]
    rw [show ((10 : Int)).toNat = 10 from rfl]
    rw [show (n + 1) * 10 = n * 10 + 10 from by ring, List.take_add]
    rfl

/-- C5 (confirmed): for any filter matching N records, concatenating the
pages 1..ceil(N/10) of page_size-10 list calls yields the whole filtered
set — exactly N records, a permutation of the filtered rows (no
duplicates, no omissions), with pairwise-distinct ids whenever the store's
ids are distinct, ordered by id descending. -/
theorem c5_pagination_exact_cover (s : StoreState) (p : UserQueryParams)
    (hids : (s.rows.map User.id).Nodup) :
    concatPages s p (((s.rows.filter (matchesFilter p)).length + 9) / 10)
        = sortByIdDesc (s.rows.filter (matchesFilter p)) ∧
    List.Perm
      (concatPages s p (((s.rows.filter (matchesFilter p)).length + 9) / 10))
      (s.rows.filter (matchesFilter p)) ∧
    (concatPages s p
        (((s.rows.filter (matchesFilter p)).length + 9) / 10)).length
      = (s.rows.filter (matchesFilter p)).length ∧
    ((concatPages s p
        (((s.rows.filter (matchesFilter p)).length + 9) / 10)).map
          User.id).Nodup ∧
    List.Sorted idDescRel
      (concatPages s p
        (((s.rows.filter (matchesFilter p)).length + 9) / 10)) := by
  have hperm : List.Perm (sortByIdDesc (s.rows.filter (matchesFilter p)))
      (s.rows.filter (matchesFilter p)) :=
    List.perm_insertionSort idDescRel (s.rows.filter (matchesFilter p))
  have hlen : (sortByIdDesc (s.rows.filter (matchesFilter p))).length
      = (s.rows.filter (matchesFilter p)).length := hperm.length_eq
  have hcover : concatPages s p
      (((s.rows.filter (matchesFilter p)).length + 9) / 10)
      = sortByIdDesc (s.rows.filter (matchesFilter p)) := by
    rw [concatPages_eq_take]
    exact List.take_of_length_le (by rw [hlen]; omega)
  have hsubF : List.Sublist ((s.rows.filter (matchesFilter p)).map User.id)
      (s.rows.map User.id) :=
    (List.filter_sublist s.rows).map User.id
  have hnodupF : ((s.rows.filter (matchesFilter p)).map User.id).Nodup :=
    hids.sublist hsubF
  have hnodup : ((sortByIdDesc (s.rows.filter (matchesFilter p))).map
      User.id).Nodup :=
    ((hperm.map User.id).nodup_iff).mpr hnodupF
  have hsorted : List.Sorted idDescRel
      (sortByIdDesc (s.rows.filter (matchesFilter p))) :=
    List.sorted_insertionSort idDescRel (s.rows.filter (matchesFilter p))
  refine ⟨hcover, ?_, ?_, ?_, ?_⟩
  · rw [hcover]; exact hperm
  · rw [hcover]; exact hlen
  · rw [hcover]; exact hnodup
  · rw [hcover]; exact hsorted

/-- Witness for the C5 theorem at a three-row store. -/
theorem c5_pagination_exact_cover_witness :
    concatPages { rows := [mkRow 3, mkRow 1, mkRow 2], nextId := 4, clock := 0 }
        (pageParams 1 10)
        ((((({ rows := [mkRow 3, mkRow 1, mkRow 2], nextId := 4, clock := 0 }
            : StoreState)).rows.filter
              (matchesFilter (pageParams 1 10))).length + 9) / 10)
      = sortByIdDesc
          ((({ rows := [mkRow 3, mkRow 1, mkRow 2], nextId := 4, clock := 0 }
            : StoreState)).rows.filter (matchesFilter (pageParams 1 10))) ∧
    List.Perm
      (concatPages { rows := [mkRow 3, mkRow 1, mkRow 2], nextId := 4, clock := 0 }
        (pageParams 1 10)
        ((((({ rows := [mkRow 3, mkRow 1, mkRow 2], nextId := 4, clock := 0 }
            : StoreState)).rows.filter
              (matchesFilter (pageParams 1 10))).length + 9) / 10))
      ((({ rows := [mkRow 3, mkRow 1, mkRow 2], nextId := 4, clock := 0 }
        : StoreState)).rows.filter (matchesFilter (pageParams 1 10))) ∧
    (concatPages { rows := [mkRow 3, mkRow 1, mkRow 2], nextId := 4, clock := 0 }
        (pageParams 1 10)
        ((((({ rows := [mkRow 3, mkRow 1, mkRow 2], nextId := 4, clock := 0 }
            : StoreState)).rows.filter
              (matchesFilter (pageParams 1 10))).length + 9) / 10)).length
      = ((({ rows := [mkRow 3, mkRow 1, mkRow 2], nextId := 4, clock := 0 }
          : StoreState)).rows.filter (matchesFilter (pageParams 1 10))).length ∧
    ((concatPages { rows := [mkRow 3, mkRow 1, mkRow 2], nextId := 4, clock := 0 }
        (pageParams 1 10)
        ((((({ rows := [mkRow 3, mkRow 1, mkRow 2], nextId := 4, clock := 0 }
            : StoreState)).rows.filter
              (matchesFilter (pageParams 1 10))).length + 9) / 10)).map
          User.id).Nodup ∧
    List.Sorted idDescRel
      (concatPages { rows := [mkRow 3, mkRow 1, mkRow 2], nextId := 4, clock := 0 }
        (pageParams 1 10)
        ((((({ rows := [mkRow 3, mkRow 1, mkRow 2], nextId := 4, clock := 0 }
            : StoreState)).rows.filter
              (matchesFilter (pageParams 1 10))).length + 9) / 10)) :=
  c5_pagination_exact_cover
    { rows := [mkRow 3, mkRow 1, mkRow 2], nextId := 4, clock := 0 }
    (pageParams 1 10) (by decide)
